import Mathlib

/-!
# Verification of the revvoice session server (`server/index.js`)

Shallow embedding of the per-connection conversation session logic of the
revvoice server: the request-body builders of `callGeminiAPI` and
`processAudioToText`, the WAV encoder `encodeWavFromPCM16`, and the
WebSocket message handler (`start_mic`, `stop_mic`, `interrupt`,
`audio_data`, `text_message`) together with its asynchronous suspension
points at the two network calls.

Conventions of the embedding:
* JS arrays are Lean `List`s; PCM16 samples are `Int` values (the byte
  encoder takes them modulo 2^16, as `Buffer.writeInt16LE` does for
  in-range values produced by `Int16Array.from`).
* A JS value that may be absent (`message.text`, `message.audio`,
  `conversation.abortController`) is an `Option`; JS falsiness of a string
  is equality with `""`.
* `AbortController` instances are numbered by a counter; the set of
  controllers on which `abort()` has been called is carried alongside the
  session (`abort()` on an already-aborted controller is a no-op).
* Each network call (`fetch` inside `callGeminiAPI` / `processAudioToText`)
  is a suspension point: the handler up to the `await` runs atomically, the
  continuation is stored as a `Task`, and a later `resolve` step supplies
  the outcome of the fetch and runs the continuation to the next suspension
  point or to completion.  Messages start processing in arrival order;
  resolutions interleave arbitrarily, as in the Node event loop.
-/

namespace Revvoice

/-- One entry of `conversationHistory`: `{ role, text }`. -/
structure Turn where
  role : String
  text : String
deriving DecidableEq, Repr

/-- One part of a Gemini request content: a text part or an
`inline_data` part (mime type and base64 payload). -/
inductive GPart where
  | text (s : String)
  | inlineData (mimeType : String) (data : String)
deriving DecidableEq, Repr

/-- One entry of the `contents` array of a Gemini request body. -/
structure GContent where
  role : Option String
  parts : List GPart
deriving DecidableEq, Repr

/-- JS `array.slice(-n)`: the at most `n` last elements. -/
def sliceLast (l : List α) (n : Nat) : List α :=
  l.drop (l.length - n)

/-- The `contents` array built by `callGeminiAPI(prompt, conversationHistory)`:
the last 10 history turns (`conversationHistory.slice(-10)`), each as one
content entry with the turn's role and text, followed by the prompt as a
final `user` entry.  (The system instruction is sent in a separate
`system_instruction` field, not in `contents`.) -/
def callGeminiContents (prompt : String) (conversationHistory : List Turn) : List GContent :=
  (sliceLast conversationHistory 10).map
    (fun msg => { role := some msg.role, parts := [GPart.text msg.text] })
    ++ [{ role := some "user", parts := [GPart.text prompt] }]

/-- The per-turn content builder of `processAudioToText`'s history loop:
skipped when `msg.text` is falsy, role normalised to `model`/`user`. -/
def audioHistoryContent (msg : Turn) : Option GContent :=
  if msg.text = "" then none
  else some { role := some (if msg.role = "model" then "model" else "user"),
              parts := [GPart.text msg.text] }

/-- The `contents` array built by `processAudioToText`: the source runs the
`recentHistory.forEach` loop twice (two identical consecutive loops), then
appends the WAV clip as an `inline_data` user entry. -/
def processAudioContents (conversationHistory : List Turn) (base64 : String) : List GContent :=
  let recentHistory := sliceLast conversationHistory 10
  recentHistory.filterMap audioHistoryContent
    ++ recentHistory.filterMap audioHistoryContent
    ++ [{ role := some "user", parts := [GPart.inlineData "audio/wav" base64] }]

/-- Outcome of one raw Gemini `fetch`, before the surrounding `try/catch`:
success with the extracted text, a non-2xx HTTP status with its body, a
response body without `candidates[0].content.parts[0].text`, a network or
timeout failure carrying its message, or rejection because the
`AbortController` was aborted. -/
inductive ApiOutcome where
  | ok (text : String)
  | httpError (status : Nat) (body : String)
  | invalidStructure
  | fetchError (message : String)
  | aborted
deriving DecidableEq, Repr

/-- The `error.message` that `callGeminiAPI`'s catch block observes for each
failing outcome (`HTTP error! status: ..., body: ...` for non-2xx,
`Invalid API response structure` for a malformed body, the abort message of
Node's `AbortError` for a cancelled call). -/
def geminiErrorMessage : ApiOutcome → String
  | .ok t => t
  | .httpError status body => "HTTP error! status: " ++ toString status ++ ", body: " ++ body
  | .invalidStructure => "Invalid API response structure"
  | .fetchError m => m
  | .aborted => "This operation was aborted"

/-- The string `callGeminiAPI` returns for a given fetch outcome: the
extracted text on success, otherwise the catch block's apology naming the
error.  The function never throws. -/
def callGeminiAPIResult : ApiOutcome → String
  | .ok t => t
  | o => "Sorry, I encountered an error: " ++ geminiErrorMessage o ++ ". Please try again."

/-- The `error.message` that `processAudioToText`'s catch block observes
(`HTTP <status>: <body>` for non-2xx, `No text found in AI response` for a
malformed body). -/
def audioErrorMessage : ApiOutcome → String
  | .ok t => t
  | .httpError status body => "HTTP " ++ toString status ++ ": " ++ body
  | .invalidStructure => "No text found in AI response"
  | .fetchError m => m
  | .aborted => "This operation was aborted"

/-- The string `processAudioToText` returns for a given fetch outcome.
The function never throws. -/
def processAudioToTextResult : ApiOutcome → String
  | .ok t => t
  | o => "Sorry, I could not process the audio: " ++ audioErrorMessage o

/-- Little-endian bytes of `Buffer.writeUInt16LE`. -/
def u16le (v : Nat) : List Nat := [v % 256, v / 256 % 256]

/-- Little-endian bytes of `Buffer.writeUInt32LE`. -/
def u32le (v : Nat) : List Nat :=
  [v % 256, v / 256 % 256, v / 65536 % 256, v / 16777216 % 256]

/-- Little-endian bytes of `Buffer.writeInt16LE`: two's complement of the
sample modulo 2^16. -/
def i16le (v : Int) : List Nat := u16le (v % 65536).toNat

/-- The sample-writing loop of `encodeWavFromPCM16`: each 16-bit sample as
two little-endian bytes, in order. -/
def pcmBytes : List Int → List Nat
  | [] => []
  | v :: vs => i16le v ++ pcmBytes vs

/-- `encodeWavFromPCM16(int16Array, sampleRate)`: the 44-byte RIFF/WAVE
header followed by the raw little-endian sample bytes.  ASCII tags are
spelled as byte lists (`RIFF` = 82,73,70,70; `WAVE` = 87,65,86,69;
`fmt ` = 102,109,116,32; `data` = 100,97,116,97). -/
def encodeWavFromPCM16 (int16Array : List Int) (sampleRate : Nat) : List Nat :=
  let numFrames := int16Array.length
  let bytesPerSample := 2
  let blockAlign := bytesPerSample * 1
  let byteRate := sampleRate * blockAlign
  let dataSize := numFrames * bytesPerSample
  [82, 73, 70, 70]
    ++ u32le (36 + dataSize)
    ++ [87, 65, 86, 69]
    ++ [102, 109, 116, 32]
    ++ u32le 16
    ++ u16le 1
    ++ u16le 1
    ++ u32le sampleRate
    ++ u32le byteRate
    ++ u16le blockAlign
    ++ u16le 16
    ++ [100, 97, 116, 97]
    ++ u32le dataSize
    ++ pcmBytes int16Array

/-- The per-connection session object stored in `activeConversations`
(the unused `currentResponse: null` field is omitted): history log,
`isSpeaking` flag (the spec's `micActive`), buffered PCM16 samples,
selected language code, and the current `AbortController` (a numbered
handle, `none` for JS `null`). -/
structure Conversation where
  conversationHistory : List Turn
  isSpeaking : Bool
  audioBuffer : List Int
  languageCode : String
  abortController : Option Nat
deriving DecidableEq, Repr

/-- The session object as initialised on connection. -/
def initialConversation : Conversation :=
  { conversationHistory := []
  , isSpeaking := false
  , audioBuffer := []
  , languageCode := "en-IN"
  , abortController := none }

/-- Outbound events the message handler sends on the WebSocket (the
connection-time `connection_status` / `gemini_status` events are outside
the message handler and not modelled). -/
inductive Event where
  | micStatus (started : Bool)
  | interruptAck (interrupted : Bool)
  | userMessage (text : String)
  | aiResponse (text : String)
  | error (message : String)
deriving DecidableEq, Repr

/-- Parsed inbound client messages.  Optional / possibly-invalid fields are
`Option`s: `textMessage none` is a message without a usable `text` field,
`audioData none` one whose `audio` is missing or not an array. -/
inductive ClientMessage where
  | startMic (languageCode : Option String)
  | stopMic
  | interrupt
  | audioData (audio : Option (List Int))
  | textMessage (text : Option String)
  | unknown (t : String)
deriving DecidableEq, Repr

/-- A message handler suspended at one of its `await`ed fetches, holding
the `AbortController` its fetch was started with (`none` = no signal):
`text_message` waiting on `callGeminiAPI`, `stop_mic` waiting on
`processAudioToText`, or `stop_mic` waiting on its follow-up
`callGeminiAPI`. -/
inductive Task where
  | textAwaitingReply (ctrl : Option Nat)
  | stopMicAwaitingTranscribe (ctrl : Option Nat)
  | stopMicAwaitingReply (ctrl : Option Nat)
deriving DecidableEq, Repr

/-- The controller a suspended handler's fetch was started with. -/
def Task.ctrl : Task → Option Nat
  | .textAwaitingReply c => c
  | .stopMicAwaitingTranscribe c => c
  | .stopMicAwaitingReply c => c

/-- State of one session's event processing: the session object, the set of
aborted controller handles, the counter for fresh handles, the suspended
handlers, and the trace of events emitted so far. -/
structure Machine where
  conv : Conversation
  aborted : List Nat
  nextCtrl : Nat
  tasks : List Task
  events : List Event
deriving DecidableEq, Repr

/-- Machine state right after the connection is accepted. -/
def initialMachine : Machine :=
  { conv := initialConversation, aborted := [], nextCtrl := 0, tasks := [], events := [] }

/-- `controller.abort()`: mark a handle aborted (a no-op when it already
is, as in JS). -/
def markAborted (c : Nat) (ab : List Nat) : List Nat :=
  if c ∈ ab then ab else c :: ab

/-- `if (conversation.abortController) conversation.abortController.abort()`. -/
def abortCurrent (conv : Conversation) (ab : List Nat) : List Nat :=
  match conv.abortController with
  | some c => markAborted c ab
  | none => ab

/-- Append one outbound event to the trace (`clientWs.send`). -/
def emit (e : Event) (m : Machine) : Machine :=
  { m with events := m.events ++ [e] }

/-- Whether a fetch's controller has been aborted (a fetch started without
a signal is never aborted). -/
def ctrlAborted (ab : List Nat) : Option Nat → Bool
  | some c => decide (c ∈ ab)
  | none => false

/-- One inbound message starts processing (in arrival order): the handler
body runs atomically up to its first `await` or to completion.
* `start_mic`: set `isSpeaking`, clear the buffer, adopt a non-blank
  trimmed language code, send `mic_status{started:true}`.
* `stop_mic` while speaking: clear `isSpeaking`; with a non-empty buffer,
  abort and replace the current controller and suspend at the
  `processAudioToText` fetch; with an empty buffer, send
  `mic_status{started:false}` at once.
* `interrupt`: clear `isSpeaking` and the buffer, abort the current
  controller, send `interrupt_ack{interrupted:true}` then
  `mic_status{started:false}`.
* `audio_data`: append the samples while speaking, else drop them.
* `text_message` with truthy text: push the user turn, send
  `user_message`, abort and replace the current controller, suspend at the
  `callGeminiAPI` fetch.
* anything else: no effect. -/
def deliver (m : Machine) (msg : ClientMessage) : Machine :=
  match msg with
  | .startMic lc =>
    let conv := { m.conv with isSpeaking := true, audioBuffer := [] }
    let conv :=
      match lc with
      | some s => if s.trim ≠ "" then { conv with languageCode := s.trim } else conv
      | none => conv
    emit (.micStatus true) { m with conv := conv }
  | .stopMic =>
    if m.conv.isSpeaking then
      let conv := { m.conv with isSpeaking := false }
      if conv.audioBuffer.isEmpty then
        emit (.micStatus false) { m with conv := conv }
      else
        let ab := abortCurrent conv m.aborted
        let c := m.nextCtrl
        { m with conv := { conv with abortController := some c }
               , aborted := ab
               , nextCtrl := c + 1
               , tasks := m.tasks ++ [.stopMicAwaitingTranscribe (some c)] }
    else m
  | .interrupt =>
    let ab := abortCurrent m.conv m.aborted
    emit (.micStatus false) (emit (.interruptAck true)
      { m with conv := { m.conv with isSpeaking := false, audioBuffer := [] }
             , aborted := ab })
  | .audioData audio =>
    match audio with
    | some arr =>
      if m.conv.isSpeaking then
        { m with conv := { m.conv with audioBuffer := m.conv.audioBuffer ++ arr } }
      else m
    | none => m
  | .textMessage t =>
    match t with
    | some s =>
      if s = "" then m
      else
        let conv := { m.conv with
          conversationHistory := m.conv.conversationHistory ++ [{ role := "user", text := s }] }
        let m1 := emit (.userMessage s) { m with conv := conv }
        let ab := abortCurrent conv m1.aborted
        let c := m1.nextCtrl
        { m1 with conv := { conv with abortController := some c }
                , aborted := ab
                , nextCtrl := c + 1
                , tasks := m1.tasks ++ [.textAwaitingReply (some c)] }
    | none => m
  | .unknown _ => m

/-- The fetch awaited by the suspended handler at index `i` settles with
outcome `o`, and the handler resumes:
* `text_message` continuation: push the model turn with
  `callGeminiAPI`'s result and send `ai_response`.
* `stop_mic` transcription continuation: push the user turn with
  `processAudioToText`'s result, send `user_message`, then start the reply
  fetch with the session's *current* `abortController` (re-read at call
  time, as the source does) and suspend again.
* `stop_mic` reply continuation: push the model turn, send `ai_response`,
  then send `mic_status{started:false}`. -/
def resolve (m : Machine) (i : Nat) (o : ApiOutcome) : Machine :=
  match m.tasks.get? i with
  | none => m
  | some t =>
    let m1 := { m with tasks := m.tasks.eraseIdx i }
    match t with
    | .textAwaitingReply _ =>
      let response := callGeminiAPIResult o
      emit (.aiResponse response)
        { m1 with conv := { m1.conv with
            conversationHistory :=
              m1.conv.conversationHistory ++ [{ role := "model", text := response }] } }
    | .stopMicAwaitingTranscribe _ =>
      let userText := processAudioToTextResult o
      let m2 := emit (.userMessage userText)
        { m1 with conv := { m1.conv with
            conversationHistory :=
              m1.conv.conversationHistory ++ [{ role := "user", text := userText }] } }
      { m2 with tasks := m2.tasks ++ [.stopMicAwaitingReply m2.conv.abortController] }
    | .stopMicAwaitingReply _ =>
      let aiResponse := callGeminiAPIResult o
      emit (.micStatus false) (emit (.aiResponse aiResponse)
        { m1 with conv := { m1.conv with
            conversationHistory :=
              m1.conv.conversationHistory ++ [{ role := "model", text := aiResponse }] } })

/-- Number of live outstanding outbound calls: suspended handlers whose
fetch's controller has not been aborted. -/
def livePending (m : Machine) : Nat :=
  (m.tasks.filter (fun t => !(ctrlAborted m.aborted t.ctrl))).length

/-- A raw WebSocket frame: either it parses to a client message, or
`JSON.parse` throws with some message. -/
inductive RawMessage where
  | parsed (msg : ClientMessage)
  | malformed (parseError : String)

/-- The whole `'message'` listener: parse, then dispatch; a parse failure
is caught and answered with a single `error` event, touching nothing. -/
def deliverRaw (m : Machine) (r : RawMessage) : Machine :=
  match r with
  | .parsed msg => deliver m msg
  | .malformed e => emit (.error ("Server error: " ++ e)) m

/-- Read a 16-bit little-endian value out of a byte sequence. -/
def readU16LE (l : List Nat) (off : Nat) : Nat :=
  l.getD off 0 + 256 * l.getD (off + 1) 0

/-- Read a 32-bit little-endian value out of a byte sequence. -/
def readU32LE (l : List Nat) (off : Nat) : Nat :=
  l.getD off 0 + 256 * l.getD (off + 1) 0
    + 65536 * l.getD (off + 2) 0 + 16777216 * l.getD (off + 3) 0

/-! ## Helper lemmas -/

theorem mem_markAborted_self (c : Nat) (ab : List Nat) : c ∈ markAborted c ab := by
  unfold markAborted
  split
  · assumption
  · exact List.mem_cons_self c ab

theorem mem_markAborted_of_mem {a : Nat} (c : Nat) {ab : List Nat} (h : a ∈ ab) :
    a ∈ markAborted c ab := by
  unfold markAborted
  split
  · exact h
  · exact List.mem_cons_of_mem c h

theorem markAborted_markAborted (c : Nat) (ab : List Nat) :
    markAborted c (markAborted c ab) = markAborted c ab := by
  unfold markAborted
  split
  · rfl
  · simp

theorem mem_abortCurrent_of_mem {a : Nat} (conv : Conversation) {ab : List Nat}
    (h : a ∈ ab) : a ∈ abortCurrent conv ab := by
  unfold abortCurrent
  cases conv.abortController with
  | none => exact h
  | some c => exact mem_markAborted_of_mem c h

theorem mem_abortCurrent_self {conv : Conversation} {c : Nat} (ab : List Nat)
    (h : conv.abortController = some c) : c ∈ abortCurrent conv ab := by
  unfold abortCurrent
  rw [h]
  exact mem_markAborted_self c ab

theorem get?_concat_length (l : List α) (a : α) : (l ++ [a]).get? l.length = some a := by
  induction l with
  | nil => rfl
  | cons x xs ih => simp [ih]

theorem eraseIdx_concat_length (l : List α) (a : α) : (l ++ [a]).eraseIdx l.length = l := by
  induction l with
  | nil => rfl
  | cons x xs ih => simp [List.eraseIdx, ih]

theorem u32le_roundtrip (x : Nat) (h : x < 2 ^ 32) :
    x % 256 + 256 * (x / 256 % 256) + 65536 * (x / 65536 % 256)
      + 16777216 * (x / 16777216 % 256) = x := by
  omega

theorem pcmBytes_length (l : List Int) : (pcmBytes l).length = 2 * l.length := by
  induction l with
  | nil => rfl
  | cons v vs ih =>
    simp [pcmBytes, i16le, u16le, ih]
    omega

theorem livePending_eq_zero {m : Machine}
    (h : ∀ t ∈ m.tasks, ctrlAborted m.aborted t.ctrl = true) : livePending m = 0 := by
  unfold livePending
  rw [List.length_eq_zero, List.filter_eq_nil_iff]
  intro t ht
  simp [h t ht]

/-! ## Claims -/

/-- **C5.** Any sequence of `audio_data` events delivered while
`isSpeaking` (the spec's `micActive`) is `false` leaves the whole session
state — in particular `audioBuffer` — unchanged, and emits nothing: the
carried samples are discarded without error.  The buffer can only grow in
the `isSpeaking = true` branch of the handler. -/
theorem audio_data_ignored_while_mic_inactive (m : Machine)
    (h : m.conv.isSpeaking = false) (frames : List (Option (List Int))) :
    frames.foldl (fun acc a => deliver acc (.audioData a)) m = m := by
  induction frames with
  | nil => rfl
  | cons a as ih =>
    have step : deliver m (.audioData a) = m := by
      cases a with
      | none => rfl
      | some arr => simp [deliver, h]
    simp [step, ih]

theorem audio_data_ignored_while_mic_inactive_witness :
    [some [5, 6], none, some ([] : List Int)].foldl
      (fun acc a => deliver acc (.audioData a)) initialMachine = initialMachine :=
  audio_data_ignored_while_mic_inactive initialMachine rfl [some [5, 6], none, some []]

/-- **C8.** `stop_mic` in the listening state with an empty audio buffer
goes straight to idle: the only change is `isSpeaking := false` and a
single `mic_status{started:false}` event — no `user_message`, no
`ai_response`, no suspended generation call, history untouched. -/
theorem stop_mic_empty_buffer_idle (m : Machine)
    (h1 : m.conv.isSpeaking = true) (h2 : m.conv.audioBuffer = []) :
    deliver m .stopMic =
      { m with conv := { m.conv with isSpeaking := false }
             , events := m.events ++ [.micStatus false] } := by
  simp [deliver, emit, h1, h2]

theorem stop_mic_empty_buffer_idle_witness :
    deliver { initialMachine with conv := { initialConversation with isSpeaking := true } }
        .stopMic =
      { initialMachine with
          conv := initialConversation
        , events := [.micStatus false] } :=
  stop_mic_empty_buffer_idle
    { initialMachine with conv := { initialConversation with isSpeaking := true } } rfl rfl

/-- **C9.** An unparseable inbound frame is answered with exactly one
generic `error` event, and every component of the session state (session
object with history, buffer, `isSpeaking`, language code and controller;
aborted set; controller counter; suspended handlers) is unchanged. -/
theorem malformed_message_error_state_unchanged (m : Machine) (e : String) :
    (deliverRaw m (.malformed e)).conv = m.conv ∧
    (deliverRaw m (.malformed e)).tasks = m.tasks ∧
    (deliverRaw m (.malformed e)).aborted = m.aborted ∧
    (deliverRaw m (.malformed e)).nextCtrl = m.nextCtrl ∧
    (deliverRaw m (.malformed e)).events = m.events ++ [.error ("Server error: " ++ e)] :=
  ⟨rfl, rfl, rfl, rfl, rfl⟩

/-- **C10.** A `text_message` whose `text` field is missing or empty
(falsy) is a complete no-op: the machine — session fields, suspended
handlers, controllers and event trace alike — is returned unchanged. -/
theorem falsy_text_message_noop (m : Machine) :
    deliver m (.textMessage none) = m ∧ deliver m (.textMessage (some "")) = m :=
  ⟨rfl, by simp [deliver]⟩

/-- **C4.** Processing `interrupt` — from any session state whose suspended
handlers all run on a controller that is already aborted or is the
session's current one (true of every reachable state) — aborts the current
controller (cancelling any pending request, so no live outbound call
remains), clears the audio buffer, forces `isSpeaking := false` (idle), and
emits `interrupt_ack{interrupted:true}` followed by
`mic_status{started:false}`; and it is idempotent: a second immediate
`interrupt` leaves the session object identical, still with no live
pending call, and emits the same two events again — including when the
session was already idle. -/
theorem interrupt_idempotent_cancels_all (m : Machine)
    (hts : ∀ t ∈ m.tasks, ∃ c, t.ctrl = some c ∧
      (c ∈ m.aborted ∨ m.conv.abortController = some c)) :
    (deliver m .interrupt).conv.isSpeaking = false ∧
    (deliver m .interrupt).conv.audioBuffer = [] ∧
    (deliver m .interrupt).aborted = abortCurrent m.conv m.aborted ∧
    livePending (deliver m .interrupt) = 0 ∧
    (deliver m .interrupt).events = m.events ++ [.interruptAck true, .micStatus false] ∧
    (deliver (deliver m .interrupt) .interrupt).conv = (deliver m .interrupt).conv ∧
    livePending (deliver (deliver m .interrupt) .interrupt) = 0 ∧
    (deliver (deliver m .interrupt) .interrupt).events =
      (deliver m .interrupt).events ++ [.interruptAck true, .micStatus false] := by
  have habort1 : ∀ t ∈ m.tasks,
      ctrlAborted (abortCurrent m.conv m.aborted) t.ctrl = true := by
    intro t ht
    obtain ⟨c, hc, hor⟩ := hts t ht
    rw [hc]
    simp only [ctrlAborted, decide_eq_true_eq]
    cases hor with
    | inl h => exact mem_abortCurrent_of_mem _ h
    | inr h => exact mem_abortCurrent_self _ h
  have habort2 : ∀ t ∈ m.tasks,
      ctrlAborted (abortCurrent m.conv (abortCurrent m.conv m.aborted)) t.ctrl = true := by
    intro t ht
    obtain ⟨c, hc, hor⟩ := hts t ht
    rw [hc]
    simp only [ctrlAborted, decide_eq_true_eq]
    cases hor with
    | inl h => exact mem_abortCurrent_of_mem _ (mem_abortCurrent_of_mem _ h)
    | inr h => exact mem_abortCurrent_self _ h
  refine ⟨rfl, rfl, rfl, ?_, by simp [deliver, emit], rfl, ?_, by simp [deliver, emit]⟩
  · exact livePending_eq_zero habort1
  · exact livePending_eq_zero habort2

theorem interrupt_idempotent_cancels_all_witness :
    (deliver (deliver initialMachine (.textMessage (some "hey"))) .interrupt).conv.isSpeaking
        = false ∧
    (deliver (deliver initialMachine (.textMessage (some "hey"))) .interrupt).conv.audioBuffer
        = [] ∧
    (deliver (deliver initialMachine (.textMessage (some "hey"))) .interrupt).aborted
        = abortCurrent (deliver initialMachine (.textMessage (some "hey"))).conv
            (deliver initialMachine (.textMessage (some "hey"))).aborted ∧
    livePending (deliver (deliver initialMachine (.textMessage (some "hey"))) .interrupt) = 0 ∧
    (deliver (deliver initialMachine (.textMessage (some "hey"))) .interrupt).events
        = (deliver initialMachine (.textMessage (some "hey"))).events
            ++ [.interruptAck true, .micStatus false] ∧
    (deliver (deliver (deliver initialMachine (.textMessage (some "hey"))) .interrupt)
        .interrupt).conv
      = (deliver (deliver initialMachine (.textMessage (some "hey"))) .interrupt).conv ∧
    livePending (deliver (deliver (deliver initialMachine (.textMessage (some "hey")))
        .interrupt) .interrupt) = 0 ∧
    (deliver (deliver (deliver initialMachine (.textMessage (some "hey"))) .interrupt)
        .interrupt).events
      = (deliver (deliver initialMachine (.textMessage (some "hey"))) .interrupt).events
          ++ [.interruptAck true, .micStatus false] :=
  interrupt_idempotent_cancels_all (deliver initialMachine (.textMessage (some "hey")))
    (by
      intro t ht
      simp [deliver, emit, initialMachine, initialConversation] at ht
      exact ⟨0, by simp [ht, Task.ctrl], Or.inr rfl⟩)

/-- **C7.** A failing generation call (non-2xx, malformed body, network
error/timeout, or abort mid-flight) never surfaces an exception: both
`callGeminiAPI` and `processAudioToText` return an apologetic text naming
the error, and the `text_message` handler resumed with such a failure still
appends the user turn and the synthetic model turn to the history and
emits exactly `user_message` then `ai_response` — no protocol-level
`error` event. -/
theorem generation_failure_degrades_to_text (m : Machine) (s : String) (hs : s ≠ "")
    (o : ApiOutcome) (ho : ∀ t, o ≠ ApiOutcome.ok t) :
    callGeminiAPIResult o =
      "Sorry, I encountered an error: " ++ geminiErrorMessage o ++ ". Please try again." ∧
    processAudioToTextResult o =
      "Sorry, I could not process the audio: " ++ audioErrorMessage o ∧
    (resolve (deliver m (.textMessage (some s))) m.tasks.length o).conv.conversationHistory
      = m.conv.conversationHistory
        ++ [{ role := "user", text := s }, { role := "model", text := callGeminiAPIResult o }] ∧
    (resolve (deliver m (.textMessage (some s))) m.tasks.length o).events
      = m.events ++ [.userMessage s, .aiResponse (callGeminiAPIResult o)] := by
  have htasks : (deliver m (.textMessage (some s))).tasks
      = m.tasks ++ [.textAwaitingReply (some m.nextCtrl)] := by
    simp [deliver, emit, hs]
  have hget : (deliver m (.textMessage (some s))).tasks.get? m.tasks.length
      = some (.textAwaitingReply (some m.nextCtrl)) := by
    rw [htasks]
    exact get?_concat_length _ _
  refine ⟨?_, ?_, ?_, ?_⟩
  · cases o with
    | ok t => exact absurd rfl (ho t)
    | httpError status body => rfl
    | invalidStructure => rfl
    | fetchError msg => rfl
    | aborted => rfl
  · cases o with
    | ok t => exact absurd rfl (ho t)
    | httpError status body => rfl
    | invalidStructure => rfl
    | fetchError msg => rfl
    | aborted => rfl
  · unfold resolve
    rw [hget]
    simp [deliver, emit, hs]
  · unfold resolve
    rw [hget]
    simp [deliver, emit, hs]

theorem generation_failure_degrades_to_text_witness :
    callGeminiAPIResult (.httpError 500 "boom") =
      "Sorry, I encountered an error: " ++ geminiErrorMessage (.httpError 500 "boom")
        ++ ". Please try again." ∧
    processAudioToTextResult (.httpError 500 "boom") =
      "Sorry, I could not process the audio: " ++ audioErrorMessage (.httpError 500 "boom") ∧
    (resolve (deliver initialMachine (.textMessage (some "hi"))) initialMachine.tasks.length
        (.httpError 500 "boom")).conv.conversationHistory
      = initialMachine.conv.conversationHistory
        ++ [{ role := "user", text := "hi" },
            { role := "model", text := callGeminiAPIResult (.httpError 500 "boom") }] ∧
    (resolve (deliver initialMachine (.textMessage (some "hi"))) initialMachine.tasks.length
        (.httpError 500 "boom")).events
      = initialMachine.events
          ++ [.userMessage "hi", .aiResponse (callGeminiAPIResult (.httpError 500 "boom"))] :=
  generation_failure_degrades_to_text initialMachine "hi" (by decide)
    (.httpError 500 "boom") (by intro t h; exact ApiOutcome.noConfusion h)

/-- The interrupted-generation scenario run against the code:
`text_message{text:"hello"}` arrives and suspends at the reply fetch on
fresh controller 0; `interrupt` arrives and aborts controller 0; the
aborted fetch rejects (`AbortError`) and the suspended handler resumes. -/
def interruptedTextScenario : Machine :=
  resolve (deliver (deliver initialMachine (.textMessage (some "hello"))) .interrupt) 0 .aborted

/-- **C2, counterexample.** In the interrupted-generation scenario the late
result of the cancelled request is *not* discarded: exactly one
`ai_response` event is emitted for it after the interrupt, and a model turn
is appended to the history (2 turns total), contradicting the claim that no
`ai_response` for the interrupted request is ever emitted and no model turn
is appended. -/
theorem interrupted_request_late_result_emitted :
    (interruptedTextScenario.events.filter
        (fun e => match e with | .aiResponse _ => true | _ => false)).length = 1 ∧
    interruptedTextScenario.conv.conversationHistory.length = 2 := by decide

/-- **C2, amended.** What the code actually does in that scenario:
`interrupt_ack{interrupted:true}` (then `mic_status{started:false}`) is
emitted promptly, before the cancelled call resolves; but when the aborted
fetch rejects, the handler resumes, emits `ai_response` carrying the
synthetic apology naming the abort, and appends it to the history as the
request's model turn; no suspended handler remains. -/
theorem interrupted_request_trace :
    interruptedTextScenario.events =
      [.userMessage "hello", .interruptAck true, .micStatus false,
       .aiResponse
         "Sorry, I encountered an error: This operation was aborted. Please try again."] ∧
    interruptedTextScenario.conv.conversationHistory =
      [{ role := "user", text := "hello" },
       { role := "model",
         text :=
           "Sorry, I encountered an error: This operation was aborted. Please try again." }] ∧
    interruptedTextScenario.tasks = [] := by decide

/-- A reachable session with two concurrently live outbound calls: a voice
turn suspends at the transcription fetch (controller 0); a `text_message`
arrives, aborts controller 0 and starts its own reply fetch on fresh
controller 1; the aborted transcription rejects and the resumed `stop_mic`
handler starts its follow-up reply fetch on the session's *current*
controller — controller 1, shared with the live `text_message` fetch. -/
def overlappingCallsScenario : Machine :=
  resolve
    (deliver
      (deliver (deliver (deliver initialMachine (.startMic none)) (.audioData (some [1])))
        .stopMic)
      (.textMessage (some "hi")))
    0 .aborted

/-- **C3, counterexample.** After the interleaving above the session has
two suspended handlers whose fetches both run on the un-aborted
controller 1 — two concurrent outbound calls — contradicting the claim
that at most one pending generation request exists per session at any
instant. -/
theorem two_concurrent_outbound_calls :
    overlappingCallsScenario.tasks =
      [.textAwaitingReply (some 1), .stopMicAwaitingReply (some 1)] ∧
    overlappingCallsScenario.aborted = [0] ∧
    livePending overlappingCallsScenario = 2 := by decide

/-- **C3, amended.** The delivery-time half of the claim holds: whenever
the *arrival* of a `stop_mic` or `text_message` issues a generation
request (adds a suspended handler), it first aborts the session's previous
cancellation handle (if any) — the aborted set becomes
`abortCurrent m.conv m.aborted` — and replaces it with the fresh handle
`m.nextCtrl`, on which the new request runs.  (The follow-up reply call
issued when a `stop_mic` transcription resolves is the exception that
breaks the full invariant, as the counterexample shows.) -/
theorem deliver_request_fresh_handle (m : Machine) (msg : ClientMessage) (t : Task)
    (h : (deliver m msg).tasks = m.tasks ++ [t]) :
    t.ctrl = some m.nextCtrl ∧
    (deliver m msg).conv.abortController = some m.nextCtrl ∧
    (deliver m msg).nextCtrl = m.nextCtrl + 1 ∧
    (deliver m msg).aborted = abortCurrent m.conv m.aborted := by
  cases msg with
  | startMic lc =>
    have h' : m.tasks = m.tasks ++ [t] := by
      rw [← h]
      cases lc with
      | none => rfl
      | some s => rfl
    simp at h'
  | stopMic =>
    by_cases hsp : m.conv.isSpeaking
    · by_cases hbuf : m.conv.audioBuffer.isEmpty
      · have h' : m.tasks = m.tasks ++ [t] := by
          rw [← h]
          simp [deliver, emit, hsp, hbuf]
        simp at h'
      · have h' : m.tasks ++ [Task.stopMicAwaitingTranscribe (some m.nextCtrl)]
            = m.tasks ++ [t] := by
          rw [← h]
          simp [deliver, emit, hsp, hbuf]
        have ht : Task.stopMicAwaitingTranscribe (some m.nextCtrl) = t := by
          simpa using h'
        refine ⟨by rw [← ht]; rfl, ?_, ?_, ?_⟩ <;> simp [deliver, emit, hsp, hbuf, abortCurrent]
    · have h' : m.tasks = m.tasks ++ [t] := by
        rw [← h]
        simp [deliver, hsp]
      simp at h'
  | interrupt =>
    have h' : m.tasks = m.tasks ++ [t] := h
    simp at h'
  | audioData a =>
    have h' : m.tasks = m.tasks ++ [t] := by
      rw [← h]
      cases a with
      | none => rfl
      | some arr =>
        simp only [deliver]
        split <;> rfl
    simp at h'
  | textMessage t0 =>
    cases t0 with
    | none =>
      have h' : m.tasks = m.tasks ++ [t] := h
      simp at h'
    | some s =>
      by_cases hse : s = ""
      · have h' : m.tasks = m.tasks ++ [t] := by
          rw [← h]
          simp [deliver, hse]
        simp at h'
      · have h' : m.tasks ++ [Task.textAwaitingReply (some m.nextCtrl)] = m.tasks ++ [t] := by
          rw [← h]
          simp [deliver, emit, hse]
        have ht : Task.textAwaitingReply (some m.nextCtrl) = t := by
          simpa using h'
        refine ⟨by rw [← ht]; rfl, ?_, ?_, ?_⟩ <;> simp [deliver, emit, hse, abortCurrent]
  | unknown s =>
    have h' : m.tasks = m.tasks ++ [t] := h
    simp at h'

theorem deliver_request_fresh_handle_witness :
    Task.ctrl (.textAwaitingReply (some 0)) = some initialMachine.nextCtrl ∧
    (deliver initialMachine (.textMessage (some "hi"))).conv.abortController
      = some initialMachine.nextCtrl ∧
    (deliver initialMachine (.textMessage (some "hi"))).nextCtrl
      = initialMachine.nextCtrl + 1 ∧
    (deliver initialMachine (.textMessage (some "hi"))).aborted
      = abortCurrent initialMachine.conv initialMachine.aborted :=
  deliver_request_fresh_handle initialMachine (.textMessage (some "hi"))
    (.textAwaitingReply (some 0)) rfl

/-- **C6.** Encoding `N` 16-bit samples with `encodeWavFromPCM16` at
16000 Hz yields `44 + 2*N` bytes; decoding the header reads back the RIFF
chunk size `36 + 2*N` at offset 4, channel count 1 at offset 22, sample
rate 16000 at offset 24, bits-per-sample 16 at offset 34 and
`dataSize = 2*N` at offset 40; and the bytes after the 44-byte header are
exactly the samples in little-endian order.  (The size bound mirrors the
range within which `Buffer.writeUInt32LE` is defined.) -/
theorem encodeWav_header_roundtrip (samples : List Int)
    (h : 36 + 2 * samples.length < 2 ^ 32) :
    (encodeWavFromPCM16 samples 16000).length = 44 + 2 * samples.length ∧
    readU32LE (encodeWavFromPCM16 samples 16000) 4 = 36 + 2 * samples.length ∧
    readU16LE (encodeWavFromPCM16 samples 16000) 22 = 1 ∧
    readU32LE (encodeWavFromPCM16 samples 16000) 24 = 16000 ∧
    readU16LE (encodeWavFromPCM16 samples 16000) 34 = 16 ∧
    readU32LE (encodeWavFromPCM16 samples 16000) 40 = 2 * samples.length ∧
    (encodeWavFromPCM16 samples 16000).drop 44 = pcmBytes samples := by
  refine ⟨?_, ?_, ?_, ?_, ?_, ?_, ?_⟩
  · simp [encodeWavFromPCM16, u32le, u16le, pcmBytes_length]
    omega
  · have hr : readU32LE (encodeWavFromPCM16 samples 16000) 4
        = (36 + samples.length * 2) % 256
          + 256 * ((36 + samples.length * 2) / 256 % 256)
          + 65536 * ((36 + samples.length * 2) / 65536 % 256)
          + 16777216 * ((36 + samples.length * 2) / 16777216 % 256) := by
      simp [encodeWavFromPCM16, u32le, u16le, readU32LE]
    rw [hr, u32le_roundtrip (36 + samples.length * 2) (by omega)]
    omega
  · simp [encodeWavFromPCM16, u32le, u16le, readU16LE]
  · simp [encodeWavFromPCM16, u32le, u16le, readU32LE]
  · simp [encodeWavFromPCM16, u32le, u16le, readU16LE]
  · have hr : readU32LE (encodeWavFromPCM16 samples 16000) 40
        = samples.length * 2 % 256
          + 256 * (samples.length * 2 / 256 % 256)
          + 65536 * (samples.length * 2 / 65536 % 256)
          + 16777216 * (samples.length * 2 / 16777216 % 256) := by
      simp [encodeWavFromPCM16, u32le, u16le, readU32LE]
    rw [hr, u32le_roundtrip (samples.length * 2) (by omega)]
    omega
  · simp [encodeWavFromPCM16, u32le, u16le]

theorem encodeWav_header_roundtrip_witness :
    (encodeWavFromPCM16 [1, -2] 16000).length = 48 ∧
    readU32LE (encodeWavFromPCM16 [1, -2] 16000) 4 = 40 ∧
    readU16LE (encodeWavFromPCM16 [1, -2] 16000) 22 = 1 ∧
    readU32LE (encodeWavFromPCM16 [1, -2] 16000) 24 = 16000 ∧
    readU16LE (encodeWavFromPCM16 [1, -2] 16000) 34 = 16 ∧
    readU32LE (encodeWavFromPCM16 [1, -2] 16000) 40 = 4 ∧
    (encodeWavFromPCM16 [1, -2] 16000).drop 44 = pcmBytes [1, -2] :=
  encodeWav_header_roundtrip [1, -2] (by norm_num)

/-- A 12-turn alternating conversation history, the concrete input at which
history truncation and the transcription-request duplication are
evaluated. -/
def hist12 : List Turn :=
  [{ role := "user", text := "m1" }, { role := "model", text := "m2" },
   { role := "user", text := "m3" }, { role := "model", text := "m4" },
   { role := "user", text := "m5" }, { role := "model", text := "m6" },
   { role := "user", text := "m7" }, { role := "model", text := "m8" },
   { role := "user", text := "m9" }, { role := "model", text := "m10" },
   { role := "user", text := "m11" }, { role := "model", text := "m12" }]

/-- **C1.** At the 12-turn history: the reply-generation body
(`callGeminiAPI`) contains each of the 10 most recent turns exactly once,
drops the 2 oldest, and has 11 content entries (10 turns + the new user
content) — but the audio-transcription body (`processAudioToText`, whose
history loop appears twice in the source) contains each recent turn
*twice* (21 entries), refuting "each appearing exactly once" for the
transcription call. -/
theorem audio_request_duplicates_recent_history :
    (callGeminiContents "new question" hist12).count
        { role := some "user", parts := [GPart.text "m3"] } = 1 ∧
    (callGeminiContents "new question" hist12).count
        { role := some "user", parts := [GPart.text "m1"] } = 0 ∧
    (callGeminiContents "new question" hist12).length = 11 ∧
    (processAudioContents hist12 "QUJD").count
        { role := some "user", parts := [GPart.text "m3"] } = 2 ∧
    (processAudioContents hist12 "QUJD").count
        { role := some "user", parts := [GPart.text "m1"] } = 0 ∧
    (processAudioContents hist12 "QUJD").length = 21 := by decide

end Revvoice
